import Mathlib

/-!
Verification of the amendment-system QA workflow subsystem.

The definitions below are a shallow embedding of the Python source:

* `backend/app/qa_workflow.py` — the QA status machine
  (`QAWorkflowValidator`).
* `backend/app/models.py` — the data model (statuses, amendments,
  watchers, mentions, reactions, notifications, history rows).
* `backend/app/crud.py` — the watcher registry, mention resolver,
  reaction ledger, notification fan-out, QA update and history writer.

Database rows are modelled as Lean structures, the database as lists of
rows plus the autoincrement counters, and each CRUD function as a pure
function threading that state.  Python truthiness on optional columns is
modelled by explicit helper functions.  A Python exception raised before
any further write is modelled by an error value paired with the state at
the raise point (each completed step has already committed).
-/

namespace AmendmentSystem

/-- Claim-relevant part of the `QAStatus` enum of `models.py`: the six QA
statuses. -/
inductive QAStatus where
| notStarted
| assigned
| inTesting
| blocked
| passed
| failed
deriving DecidableEq, Repr, Fintype

/-- The string value of each `QAStatus` member, as in `models.py`. -/
def QAStatus.value : QAStatus → String
| .notStarted => "Not Started"
| .assigned => "Assigned"
| .inTesting => "In Testing"
| .blocked => "Blocked"
| .passed => "Passed"
| .failed => "Failed"

/-- The enum constructor `QAStatus(s)`; `none` models the `ValueError`
raised on a string that is not one of the six values. -/
def QAStatus.ofString? (s : String) : Option QAStatus :=
if s = "Not Started" then some .notStarted
else if s = "Assigned" then some .assigned
else if s = "In Testing" then some .inTesting
else if s = "Blocked" then some .blocked
else if s = "Passed" then some .passed
else if s = "Failed" then some .failed
else none

/-- `QAWorkflowValidator.VALID_TRANSITIONS` of `qa_workflow.py`. -/
def VALID_TRANSITIONS : QAStatus → List QAStatus
| .notStarted => [.assigned]
| .assigned => [.inTesting]
| .inTesting => [.blocked, .passed, .failed]
| .blocked => [.inTesting, .failed]
| .passed => [.inTesting]
| .failed => [.inTesting]

/-- Python truthiness of a nullable integer column (`None` and `0` are
falsy). -/
def pyTruthyInt : Option Nat → Bool
| none => false
| some n => n != 0

/-- Python truthiness of a nullable datetime column (`None` is falsy, a
datetime object is always truthy).  Timestamps are opaque numbers here. -/
def pyTruthyDate : Option Nat → Bool
| none => false
| some _ => true

/-- Python truthiness of a nullable string column (`None` and `""` are
falsy). -/
def pyTruthyStr : Option String → Bool
| none => false
| some s => !s.isEmpty

/-- The Python `str.strip()` with no argument: remove leading and
trailing whitespace (space, tab, carriage return, line feed). -/
def pyStrip (s : String) : String :=
String.mk (((s.toList.dropWhile Char.isWhitespace).reverse.dropWhile
  Char.isWhitespace).reverse)

/-- The test `not x or not x.strip()` on a nullable string column `x`:
true when the column is null, empty, or whitespace only. -/
def blankStr (o : Option String) : Bool :=
!pyTruthyStr o || !pyTruthyStr (o.map pyStrip)

/-- Claim-relevant columns of the `Amendment` model (`models.py`), with
the column defaults.  Only the QA columns read by `qa_workflow.py` and
written by `update_amendment_qa` are carried. -/
structure Amendment where
  qa_status : String := "Not Started"
  qa_assigned_id : Option Nat := none
  qa_assigned_date : Option Nat := none
  qa_started_date : Option Nat := none
  qa_test_plan_check : Bool := false
  qa_test_release_notes_check : Bool := false
  qa_completed : Bool := false
  qa_signature : Option String := none
  qa_completed_date : Option Nat := none
  qa_notes : Option String := none
  qa_test_plan_link : Option String := none
  qa_blocked_reason : Option String := none
  modified_by : Option String := none
deriving DecidableEq, Repr

/-- `QAWorkflowValidator.can_transition`: converts the two strings to
enums (`False` on a `ValueError`), allows staying in the same status, and
otherwise consults the transition table. -/
def can_transition (from_status to_status : String) : Bool :=
match QAStatus.ofString? from_status, QAStatus.ofString? to_status with
| some f, some t => if f = t then true else (VALID_TRANSITIONS f).contains t
| _, _ => false

/-- The error string built by `validate_transition` when the table check
fails. -/
def invalid_transition_message (current_status new_status : String) : String :=
"Invalid status transition: " ++ current_status ++ " → " ++ new_status ++
". Follow the workflow: Not Started → Assigned → In Testing → Passed/Failed/Blocked"

/-- `QAWorkflowValidator._check_completion_blockers`: the list of
messages for the missing prerequisites of the Passed status, in source
order. -/
def check_completion_blockers (a : Amendment) : List String :=
(if a.qa_test_plan_check then [] else ["Test plan must be checked"]) ++
(if a.qa_test_release_notes_check then [] else ["Release notes must be checked"]) ++
(if pyTruthyDate a.qa_started_date then [] else
  ["QA testing must be started before marking as Passed"]) ++
(if blankStr a.qa_notes then
  ["QA notes are required (document what was tested and results)"] else [])

/-- The error string assembled from the completion blockers. -/
def passed_blockers_message (blockers : List String) : String :=
"Cannot mark as Passed. The following requirements must be met:\n" ++
String.intercalate "\n" (blockers.map (fun b => "  • " ++ b))

/-- `QAWorkflowValidator._validate_transition_requirements`.  The
function is reached only after `can_transition` succeeded, so the enum
conversion of `new_status` cannot fail; the `none => none` first arm
models that unreachable `ValueError` path. -/
def validate_transition_requirements (a : Amendment) (new_status : String) : Option String :=
match QAStatus.ofString? new_status with
| none => none
| some .assigned =>
  if !pyTruthyInt a.qa_assigned_id then
    some "Cannot assign QA: No QA tester assigned. Please assign a QA tester first."
  else none
| some .inTesting =>
  if !pyTruthyInt a.qa_assigned_id then
    some "Cannot start testing: No QA tester assigned."
  else if !pyTruthyDate a.qa_assigned_date then
    some "Cannot start testing: QA assignment date not set."
  else none
| some .passed =>
  let blockers := check_completion_blockers a
  if blockers.isEmpty then none else some (passed_blockers_message blockers)
| some .blocked =>
  if blankStr a.qa_blocked_reason then
    some "Cannot mark as Blocked: Please provide a reason for blocking."
  else none
| some .notStarted => none
| some .failed => none

/-- `QAWorkflowValidator.validate_transition`, state-passing: the method
reads the amendment object and returns the `(is_valid, error_message)`
judgment; its body never assigns an attribute, so the amendment component
of the result is the object it was given. -/
def validate_transition (a : Amendment) (new_status : String) :
    (Bool × Option String) × Amendment :=
if !can_transition a.qa_status new_status then
  ((false, some (invalid_transition_message a.qa_status new_status)), a)
else
  match validate_transition_requirements a new_status with
  | some e => ((false, some e), a)
  | none => ((true, none), a)

/-- `QAWorkflowValidator.get_next_allowed_statuses`: empty list on a
`ValueError`, else the table row rendered as strings. -/
def get_next_allowed_statuses (current_status : String) : List String :=
match QAStatus.ofString? current_status with
| none => []
| some s => (VALID_TRANSITIONS s).map QAStatus.value

/-- Claim-relevant columns of the `Employee` model (`models.py`).  The
model defines `employee_id`, `employee_name`, `initials`, `email`,
`windows_login`, `is_active` and audit columns; it defines no `username`
column, which is why the mention-resolution query crashes. -/
structure Employee where
  employee_id : Nat
  employee_name : String
  is_active : Bool := true
deriving DecidableEq, Repr

/-- Claim-relevant columns of the `AmendmentWatcher` model, with the
column defaults. -/
structure AmendmentWatcher where
  watcher_id : Nat
  amendment_id : Nat
  employee_id : Nat
  watch_reason : String := "Manual"
  is_watching : Bool := true
  notify_comments : Bool := true
  notify_status_changes : Bool := true
  notify_mentions : Bool := true
deriving DecidableEq, Repr

/-- Claim-relevant columns of the `CommentMention` model. -/
structure CommentMention where
  mention_id : Nat
  comment_id : Nat
  mentioned_employee_id : Nat
  mentioned_by_employee_id : Nat
deriving DecidableEq, Repr

/-- Claim-relevant columns of the `CommentReaction` model. -/
structure CommentReaction where
  reaction_id : Nat
  comment_id : Nat
  employee_id : Nat
  emoji : String
deriving DecidableEq, Repr

/-- Claim-relevant columns of the `QANotification` model. -/
structure QANotification where
  notification_id : Nat
  employee_id : Nat
  notification_type : String
  title : String
  message : String
  amendment_id : Option Nat := none
deriving DecidableEq, Repr

/-- Claim-relevant columns of the `QAHistory` model. -/
structure QAHistory where
  history_id : Nat
  amendment_id : Nat
  action : String
  field_name : Option String := none
  old_value : Option String := none
  new_value : Option String := none
  comment : Option String := none
  changed_by_id : Option Nat := none
deriving DecidableEq, Repr

/-- Claim-relevant columns of the `QAComment` model. -/
structure QAComment where
  comment_id : Nat
  amendment_id : Nat
  employee_id : Nat
  comment_text : String
  comment_type : String := "General"
  parent_comment_id : Option Nat := none
deriving DecidableEq, Repr

/-- An `amendments` table row: the QA columns plus the primary key. -/
structure AmendmentRow extends Amendment where
  amendment_id : Nat
deriving DecidableEq, Repr

/-- The record store: one list per claim-relevant table, plus the
autoincrement counter of each table (SQLite autoincrement starts at 1). -/
structure DB where
  employees : List Employee := []
  amendments : List AmendmentRow := []
  comments : List QAComment := []
  mentions : List CommentMention := []
  watchers : List AmendmentWatcher := []
  reactions : List CommentReaction := []
  notifications : List QANotification := []
  history : List QAHistory := []
  next_comment_id : Nat := 1
  next_mention_id : Nat := 1
  next_watcher_id : Nat := 1
  next_reaction_id : Nat := 1
  next_notification_id : Nat := 1
  next_history_id : Nat := 1
deriving Repr

/-- The `AmendmentQAUpdate` pydantic schema of `schemas.py`, restricted
to the columns carried by `Amendment` above.  The outer `Option` is
pydantic field-presence: `none` means the field was not supplied and is
dropped by `model_dump(exclude_unset=True)`. -/
structure AmendmentQAUpdate where
  qa_status : Option String := none
  qa_assigned_id : Option (Option Nat) := none
  qa_assigned_date : Option (Option Nat) := none
  qa_started_date : Option (Option Nat) := none
  qa_test_plan_check : Option Bool := none
  qa_test_release_notes_check : Option Bool := none
  qa_completed : Option Bool := none
  qa_signature : Option (Option String) := none
  qa_completed_date : Option (Option Nat) := none
  qa_notes : Option (Option String) := none
  qa_test_plan_link : Option (Option String) := none
  qa_blocked_reason : Option (Option String) := none
  modified_by : Option (Option String) := none
deriving Repr

/-- The `setattr` loop of `update_amendment_qa`: each supplied field
overwrites the stored column. -/
def apply_qa_update (a : Amendment) (u : AmendmentQAUpdate) : Amendment where
  qa_status := u.qa_status.getD a.qa_status
  qa_assigned_id := u.qa_assigned_id.getD a.qa_assigned_id
  qa_assigned_date := u.qa_assigned_date.getD a.qa_assigned_date
  qa_started_date := u.qa_started_date.getD a.qa_started_date
  qa_test_plan_check := u.qa_test_plan_check.getD a.qa_test_plan_check
  qa_test_release_notes_check := u.qa_test_release_notes_check.getD a.qa_test_release_notes_check
  qa_completed := u.qa_completed.getD a.qa_completed
  qa_signature := u.qa_signature.getD a.qa_signature
  qa_completed_date := u.qa_completed_date.getD a.qa_completed_date
  qa_notes := u.qa_notes.getD a.qa_notes
  qa_test_plan_link := u.qa_test_plan_link.getD a.qa_test_plan_link
  qa_blocked_reason := u.qa_blocked_reason.getD a.qa_blocked_reason
  modified_by := u.modified_by.getD a.modified_by

/-- `crud.update_amendment_qa`: look the amendment up by id, apply the
supplied QA fields, commit.  It validates nothing and writes no history
row. -/
def update_amendment_qa (db : DB) (amendment_id : Nat) (u : AmendmentQAUpdate) :
    DB × Option AmendmentRow :=
match db.amendments.find? (fun r => r.amendment_id == amendment_id) with
| none => (db, none)
| some row =>
  let updated : AmendmentRow :=
    { toAmendment := apply_qa_update row.toAmendment u, amendment_id := row.amendment_id }
  ({ db with amendments :=
      db.amendments.map (fun r => if r.amendment_id == amendment_id then updated else r) },
   some updated)

/-- `crud.create_qa_history`: append one audit row with the given action,
field name, old/new values, comment and actor. -/
def create_qa_history (db : DB) (amendment_id : Nat) (action : String)
    (field_name old_value new_value comment : Option String)
    (changed_by_id : Option Nat) : DB × QAHistory :=
let h : QAHistory :=
  { history_id := db.next_history_id, amendment_id := amendment_id, action := action,
    field_name := field_name, old_value := old_value, new_value := new_value,
    comment := comment, changed_by_id := changed_by_id }
({ db with history := db.history ++ [h], next_history_id := db.next_history_id + 1 }, h)

/-- `crud.add_watcher` (idempotent add): reuse the row of the
(amendment, employee) pair when one exists, re-activating it when muted;
otherwise insert a fresh row with the given reason and the preference
defaults. -/
def add_watcher (db : DB) (amendment_id employee_id : Nat) (reason : String) :
    DB × AmendmentWatcher :=
match db.watchers.find?
    (fun w => w.amendment_id == amendment_id && w.employee_id == employee_id) with
| some existing =>
  if existing.is_watching then (db, existing)
  else
    let updated := { existing with is_watching := true }
    ({ db with watchers :=
        db.watchers.map (fun w => if w.watcher_id == existing.watcher_id then updated else w) },
     updated)
| none =>
  let w : AmendmentWatcher :=
    { watcher_id := db.next_watcher_id, amendment_id := amendment_id,
      employee_id := employee_id, watch_reason := reason }
  ({ db with watchers := db.watchers ++ [w], next_watcher_id := db.next_watcher_id + 1 }, w)

/-- `crud.remove_watcher`: set `is_watching` to false on the row of the
pair; the row is never deleted. -/
def remove_watcher (db : DB) (amendment_id employee_id : Nat) : DB :=
match db.watchers.find?
    (fun w => w.amendment_id == amendment_id && w.employee_id == employee_id) with
| some w =>
  { db with watchers :=
      db.watchers.map (fun x =>
        if x.watcher_id == w.watcher_id then { x with is_watching := false } else x) }
| none => db

/-- `crud.get_watchers`: the active watchers of an amendment. -/
def get_watchers (db : DB) (amendment_id : Nat) : List AmendmentWatcher :=
db.watchers.filter (fun w => w.amendment_id == amendment_id && w.is_watching)

/-- The rows of the watchers table holding a given
(amendment, employee) pair, regardless of `is_watching`. -/
def watcher_pair_rows (db : DB) (amendment_id employee_id : Nat) : List AmendmentWatcher :=
db.watchers.filter (fun w => w.amendment_id == amendment_id && w.employee_id == employee_id)

/-- The skip conditions of the `notify_watchers` loop: the acting
collaborator (Python truthiness: an id of 0 or `None` disables the
exclusion) and the per-event preference flags. -/
def watcher_skipped (event_type : String) (exclude_employee_id : Option Nat)
    (w : AmendmentWatcher) : Bool :=
(pyTruthyInt exclude_employee_id && w.employee_id == exclude_employee_id.getD 0) ||
(event_type == "comment" && !w.notify_comments) ||
(event_type == "status_change" && !w.notify_status_changes) ||
(event_type == "mention" && !w.notify_mentions)

/-- The exception raised by the notification call in `notify_watchers`:
`crud.create_notification` is declared as
`create_notification(db, notification: QANotificationCreate)`, but
`notify_watchers` calls it with keyword arguments
`employee_id=..., notification_type=..., title=..., message=...,
amendment_id=...`, none of which is a parameter of that signature. -/
def create_notification_kwargs_error : String :=
"TypeError: create_notification() got an unexpected keyword argument employee_id"

/-- The loop of `notify_watchers`: each non-skipped watcher reaches the
broken `create_notification` call, which raises before inserting
anything; with every watcher skipped the loop completes. -/
def notify_watchers_loop (event_type : String) (exclude_employee_id : Option Nat) :
    List AmendmentWatcher → Option String
| [] => none
| w :: rest =>
  if watcher_skipped event_type exclude_employee_id w then
    notify_watchers_loop event_type exclude_employee_id rest
  else some create_notification_kwargs_error

/-- `crud.notify_watchers`: fetch the active watchers and run the loop.
The second component is `some err` when the loop raised; the store is
returned unchanged in either case because the raise happens before any
insert. -/
def notify_watchers (db : DB) (amendment_id : Nat) (event_type : String)
    (message : String) (exclude_employee_id : Option Nat) : DB × Option String :=
(db, notify_watchers_loop event_type exclude_employee_id (get_watchers db amendment_id))

/-- `crud.toggle_reaction`: delete the (comment, employee, emoji) row
when it exists and return nothing, else insert it and return the row. -/
def toggle_reaction (db : DB) (comment_id employee_id : Nat) (emoji : String) :
    DB × Option CommentReaction :=
match db.reactions.find?
    (fun r => r.comment_id == comment_id && r.employee_id == employee_id &&
      r.emoji == emoji) with
| some existing =>
  ({ db with reactions := db.reactions.filter (fun r => r.reaction_id != existing.reaction_id) },
   none)
| none =>
  let r : CommentReaction :=
    { reaction_id := db.next_reaction_id, comment_id := comment_id,
      employee_id := employee_id, emoji := emoji }
  ({ db with reactions := db.reactions ++ [r], next_reaction_id := db.next_reaction_id + 1 },
   some r)

/-- `crud.get_reactions_for_comment`. -/
def get_reactions_for_comment (db : DB) (comment_id : Nat) : List CommentReaction :=
db.reactions.filter (fun r => r.comment_id == comment_id)

/-- `crud.get_reaction_summary`, read at one emoji: the count the
returned dictionary holds for that emoji (an absent dictionary key is a
count of zero). -/
def get_reaction_summary (db : DB) (comment_id : Nat) (emoji : String) : Nat :=
((get_reactions_for_comment db comment_id).filter (fun r => r.emoji == emoji)).length

/-- A character matched by the regex class `\w` (ASCII reading). -/
def isWordChar (c : Char) : Bool := c.isAlphanum || c == '_'

/-- One attempt of the regex alternation `\w+|"[^\x22]+"` at the position
right after an `@`: longest word run, or a non-empty quoted span.  The
returned token is the capture with the surrounding quotes already
removed, as done by `mention.strip` on the capture; the second component
is the number of characters consumed. -/
def matchMentionToken (cs : List Char) : Option (String × Nat) :=
match cs with
| '"' :: rest =>
  let inner := rest.takeWhile (fun c => c ≠ '"')
  match rest.drop inner.length with
  | '"' :: _ => if inner.isEmpty then none else some (String.mk inner, inner.length + 2)
  | _ => none
| _ =>
  let w := cs.takeWhile isWordChar
  if w.isEmpty then none else some (String.mk w, w.length)

/-- The scan of `re.findall` for the pattern `@(\w+|"[^\x22]+")`:
left-to-right, non-overlapping.  The fuel argument makes the recursion
structural; every step consumes at least one character, so fuel equal to
the length of the scanned text (as supplied by `findMentionTokens`)
never runs out. -/
def findMentionTokensAux : Nat → List Char → List String
| 0, _ => []
| _, [] => []
| fuel+1, '@' :: rest =>
  match matchMentionToken rest with
  | some (tok, n) => tok :: findMentionTokensAux fuel (rest.drop n)
  | none => findMentionTokensAux fuel rest
| fuel+1, _ :: rest => findMentionTokensAux fuel rest

/-- The token list of the regex scan over a text. -/
def findMentionTokens (cs : List Char) : List String :=
findMentionTokensAux cs.length cs

/-- The exception raised by the resolution query of `parse_mentions`:
the query filter references `Employee.username`, and the `Employee`
model declares no `username` attribute. -/
def employee_username_attribute_error : String :=
"AttributeError: type object Employee has no attribute username"

/-- `crud.parse_mentions`: extract the mention tokens, then resolve each
against the employees table.  Building the resolution query for the
first token evaluates `Employee.username` and raises; with no token the
loop body never runs and the empty list is returned. -/
def parse_mentions (db : DB) (comment_text : String) : Except String (List Nat) :=
match findMentionTokens comment_text.toList with
| [] => .ok []
| _ :: _ => .error employee_username_attribute_error

/-- `crud.create_comment_mentions`: insert one mention row per resolved
employee, commit, then auto-watch each mentioned employee with reason
Mentioned (when the comment row is found). -/
def create_comment_mentions (db : DB) (comment_id : Nat)
    (mentioned_employee_ids : List Nat) (mentioned_by_employee_id : Nat) :
    DB × List CommentMention :=
let step := fun (acc : DB × List CommentMention) (eid : Nat) =>
  let m : CommentMention :=
    { mention_id := acc.1.next_mention_id, comment_id := comment_id,
      mentioned_employee_id := eid, mentioned_by_employee_id := mentioned_by_employee_id }
  ({ acc.1 with
      mentions := acc.1.mentions ++ [m],
      next_mention_id := acc.1.next_mention_id + 1 }, acc.2 ++ [m])
let inserted := mentioned_employee_ids.foldl step (db, [])
match inserted.1.comments.find? (fun c => c.comment_id == comment_id) with
| none => inserted
| some c =>
  (mentioned_employee_ids.foldl
    (fun d eid => (add_watcher d c.amendment_id eid "Mentioned").1) inserted.1,
   inserted.2)

/-- `crud.create_qa_comment_enhanced`: insert and commit the comment,
parse the mentions (raising on the first token, after the comment commit),
create mention rows and mention watchers, auto-watch the author with
reason Participated, then notify the watchers of the amendment (raising
at the first non-skipped watcher).  The state at each raise point keeps
everything already committed. -/
def create_qa_comment_enhanced (db : DB) (amendment_id employee_id : Nat)
    (comment_text comment_type : String) (parent_comment_id : Option Nat) :
    DB × Except String QAComment :=
let comment : QAComment :=
  { comment_id := db.next_comment_id, amendment_id := amendment_id,
    employee_id := employee_id, comment_text := comment_text,
    comment_type := comment_type, parent_comment_id := parent_comment_id }
let db1 :=
  { db with
      comments := db.comments ++ [comment],
      next_comment_id := db.next_comment_id + 1 }
match parse_mentions db1 comment_text with
| .error e => (db1, .error e)
| .ok mentioned_ids =>
  let db2 :=
    if mentioned_ids.isEmpty then db1
    else (create_comment_mentions db1 comment.comment_id mentioned_ids employee_id).1
  let db3 := (add_watcher db2 amendment_id employee_id "Participated").1
  match db3.employees.find? (fun e => e.employee_id == employee_id) with
  | none => (db3, .ok comment)
  | some emp =>
    match notify_watchers db3 amendment_id "comment"
        (emp.employee_name ++ " commented: " ++ comment_text.take 100)
        (some employee_id) with
    | (db4, none) => (db4, .ok comment)
    | (db4, some e) => (db4, .error e)

/-- Sample amendment: a freshly created row (all column defaults). -/
def freshAmendment : Amendment := {}

/-- Sample amendment: stored status Blocked with a null blocked-reason. -/
def blockedNoReason : Amendment := { qa_status := "Blocked" }

/-- Sample amendment: stored status In Testing, all other columns at
their defaults, so every Passed prerequisite is missing. -/
def inTestingBare : Amendment := { qa_status := "In Testing" }

/-- Sample store: empty, all counters fresh. -/
def emptyDB : DB := {}

/-- Sample amendment: In Testing with every Passed prerequisite met, so
the transition to Passed is accepted by the status machine. -/
def c4_amendment : Amendment :=
  { qa_status := "In Testing", qa_assigned_id := some 7, qa_assigned_date := some 1,
    qa_started_date := some 2, qa_test_plan_check := true,
    qa_test_release_notes_check := true, qa_notes := some "Regression suite executed" }

/-- Sample store holding `c4_amendment` as row 1, with an empty history
table. -/
def c4_db : DB := { amendments := [{ toAmendment := c4_amendment, amendment_id := 1 }] }

/-- The QA update request asking for the accepted transition to Passed. -/
def c4_update : AmendmentQAUpdate := { qa_status := some "Passed" }

/-- Sample store for the status-change broadcast: amendment 1 has three
active watchers, one of which has muted status-change notifications. -/
def c5_db : DB :=
  { watchers :=
      [{ watcher_id := 1, amendment_id := 1, employee_id := 10 },
       { watcher_id := 2, amendment_id := 1, employee_id := 11,
         notify_status_changes := false },
       { watcher_id := 3, amendment_id := 1, employee_id := 12 }],
    next_watcher_id := 4 }

/-- Sample store with the two active collaborators of the mention
example: alice and Bob Smith. -/
def c6_db : DB :=
  { employees :=
      [{ employee_id := 1, employee_name := "Alice Smith" },
       { employee_id := 2, employee_name := "Bob Smith" }] }

/-- Sample store for comment creation: one active collaborator who can
be mentioned; the comment author is employee 1. -/
def c7_db : DB := { employees := [{ employee_id := 2, employee_name := "Alice Smith" }] }

/-- The judgment method returns the amendment it was given in every
branch. -/
theorem validate_transition_snd (a : Amendment) (s : String) :
    (validate_transition a s).2 = a := by
  unfold validate_transition
  split
  · rfl
  · split <;> rfl

/-- When the table check fails, `validate_transition` returns the
invalid-transition message. -/
theorem validate_transition_of_can_transition_false (a : Amendment) (s : String)
    (h : can_transition a.qa_status s = false) :
    validate_transition a s =
      ((false, some (invalid_transition_message a.qa_status s)), a) := by
  unfold validate_transition
  rw [h]
  rfl

/-- Claim C1: for every pair of distinct recognized statuses that is not
an edge of the transition table, `validate_transition` on an amendment in
the `from` status, asked for the `to` status, returns not-ok with a
non-empty reason, and returns the amendment it was given unchanged. -/
theorem c1_off_table_transitions_rejected (a : Amendment) (f t : QAStatus)
    (hst : a.qa_status = f.value) (hne : f ≠ t) (htab : t ∉ VALID_TRANSITIONS f) :
    (validate_transition a t.value).1.1 = false ∧
    (∃ r, (validate_transition a t.value).1.2 = some r ∧ r ≠ "") ∧
    (validate_transition a t.value).2 = a := by
  have hcan : can_transition a.qa_status t.value = false := by
    rw [hst]
    revert hne htab
    clear hst
    cases f <;> cases t <;> decide
  rw [validate_transition_of_can_transition_false a t.value hcan]
  refine ⟨rfl, ⟨invalid_transition_message a.qa_status t.value, rfl, ?_⟩, rfl⟩
  rw [hst]
  revert hne htab
  clear hst hcan
  cases f <;> cases t <;> decide

/-- Witness for C1 at the concrete off-table pair
Not Started → Passed on a fresh amendment. -/
theorem c1_off_table_transitions_rejected_witness :
    (validate_transition freshAmendment QAStatus.passed.value).1.1 = false ∧
    (∃ r, (validate_transition freshAmendment QAStatus.passed.value).1.2 = some r ∧ r ≠ "") ∧
    (validate_transition freshAmendment QAStatus.passed.value).2 = freshAmendment :=
  c1_off_table_transitions_rejected freshAmendment .notStarted .passed rfl
    (by decide) (by decide)

/-- Claim C2 counterexample: a self-transition does not always succeed.
An amendment in status Blocked whose blocked-reason column is null is
rejected when Blocked is requested again, because the requirement gates
of the target status are evaluated even for a self-transition. -/
theorem c2_self_transition_can_fail :
    ¬ (validate_transition blockedNoReason "Blocked").1.1 = true := by decide

/-- Claim C2 as amended: a self-transition always passes the
table-membership check (`can_transition` returns true whenever the two
equal strings are a recognized status), but `validate_transition` still
evaluates the requirement gates of the target status, so the call
succeeds exactly when those gates pass. -/
theorem c2_self_transition_table_ok (s : QAStatus) (a : Amendment)
    (hst : a.qa_status = s.value) :
    can_transition a.qa_status s.value = true ∧
    ((validate_transition a s.value).1.1 = true ↔
      validate_transition_requirements a s.value = none) := by
  have hcan : can_transition a.qa_status s.value = true := by
    rw [hst]
    clear hst
    cases s <;> decide
  refine ⟨hcan, ?_⟩
  unfold validate_transition
  rw [hcan]
  cases hreq : validate_transition_requirements a s.value <;> simp [hreq]

/-- Witness for C2 (amended) at the concrete self-transition
Not Started → Not Started on a fresh amendment. -/
theorem c2_self_transition_table_ok_witness :
    can_transition freshAmendment.qa_status QAStatus.notStarted.value = true ∧
    ((validate_transition freshAmendment QAStatus.notStarted.value).1.1 = true ↔
      validate_transition_requirements freshAmendment QAStatus.notStarted.value = none) :=
  c2_self_transition_table_ok .notStarted freshAmendment rfl

/-- Claim C3: from In Testing, a request for Passed succeeds iff all
four prerequisites hold (test-plan flag, release-notes flag, a non-null
testing-start timestamp, non-empty non-whitespace notes); on failure the
returned reason is assembled from the full blocker list, each missing
prerequisite contributes its message to that list, and with both
checklist flags false the list holds at least two blockers. -/
theorem c3_passed_requires_all_prerequisites (a : Amendment)
    (hst : a.qa_status = "In Testing") :
    ((validate_transition a "Passed").1.1 = true ↔
      (a.qa_test_plan_check = true ∧ a.qa_test_release_notes_check = true ∧
       pyTruthyDate a.qa_started_date = true ∧ blankStr a.qa_notes = false)) ∧
    ((validate_transition a "Passed").1.1 = false →
      (validate_transition a "Passed").1.2 =
        some (passed_blockers_message (check_completion_blockers a))) ∧
    (a.qa_test_plan_check = false →
      "Test plan must be checked" ∈ check_completion_blockers a) ∧
    (a.qa_test_release_notes_check = false →
      "Release notes must be checked" ∈ check_completion_blockers a) ∧
    (pyTruthyDate a.qa_started_date = false →
      "QA testing must be started before marking as Passed" ∈ check_completion_blockers a) ∧
    (blankStr a.qa_notes = true →
      "QA notes are required (document what was tested and results)" ∈
        check_completion_blockers a) ∧
    (a.qa_test_plan_check = false → a.qa_test_release_notes_check = false →
      2 ≤ (check_completion_blockers a).length) := by
  have hcan : can_transition a.qa_status "Passed" = true := by
    rw [hst]
    decide
  unfold validate_transition
  rw [hcan]
  unfold validate_transition_requirements
  cases h1 : a.qa_test_plan_check <;> cases h2 : a.qa_test_release_notes_check <;>
    cases h3 : pyTruthyDate a.qa_started_date <;> cases h4 : blankStr a.qa_notes <;>
    simp_all [check_completion_blockers, QAStatus.ofString?]

/-- Witness for C3 on a concrete In Testing amendment with every
prerequisite missing. -/
theorem c3_passed_requires_all_prerequisites_witness :
    ((validate_transition inTestingBare "Passed").1.1 = true ↔
      (inTestingBare.qa_test_plan_check = true ∧
       inTestingBare.qa_test_release_notes_check = true ∧
       pyTruthyDate inTestingBare.qa_started_date = true ∧
       blankStr inTestingBare.qa_notes = false)) ∧
    ((validate_transition inTestingBare "Passed").1.1 = false →
      (validate_transition inTestingBare "Passed").1.2 =
        some (passed_blockers_message (check_completion_blockers inTestingBare))) ∧
    (inTestingBare.qa_test_plan_check = false →
      "Test plan must be checked" ∈ check_completion_blockers inTestingBare) ∧
    (inTestingBare.qa_test_release_notes_check = false →
      "Release notes must be checked" ∈ check_completion_blockers inTestingBare) ∧
    (pyTruthyDate inTestingBare.qa_started_date = false →
      "QA testing must be started before marking as Passed" ∈
        check_completion_blockers inTestingBare) ∧
    (blankStr inTestingBare.qa_notes = true →
      "QA notes are required (document what was tested and results)" ∈
        check_completion_blockers inTestingBare) ∧
    (inTestingBare.qa_test_plan_check = false →
      inTestingBare.qa_test_release_notes_check = false →
      2 ≤ (check_completion_blockers inTestingBare).length) :=
  c3_passed_requires_all_prerequisites inTestingBare rfl

/-- Claim C10: when either status string is unrecognized,
`can_transition` returns false — including when the two strings are
equal — and `get_next_allowed_statuses` on an unrecognized string
returns the empty list. -/
theorem c10_unrecognized_statuses_rejected (s₁ s₂ : String)
    (h : QAStatus.ofString? s₁ = none ∨ QAStatus.ofString? s₂ = none) :
    can_transition s₁ s₂ = false ∧
    (QAStatus.ofString? s₁ = none → get_next_allowed_statuses s₁ = []) := by
  constructor
  · unfold can_transition
    rcases h with h | h <;> cases h1 : QAStatus.ofString? s₁ <;>
      cases h2 : QAStatus.ofString? s₂ <;> simp_all
  · intro h1
    unfold get_next_allowed_statuses
    rw [h1]

/-- Witness for C10 at the unrecognized status string Cancelled, used as
both source and target. -/
theorem c10_unrecognized_statuses_rejected_witness :
    can_transition "Cancelled" "Cancelled" = false ∧
    (QAStatus.ofString? "Cancelled" = none →
      get_next_allowed_statuses "Cancelled" = []) :=
  c10_unrecognized_statuses_rejected "Cancelled" "Cancelled" (Or.inl (by decide))

/-- Replacing, in a list, the row that `find?` located (unique by its
id) by a row that still satisfies the predicate makes `find?` return the
replacement. -/
theorem find?_replace_by_id (l : List AmendmentWatcher) (w u : AmendmentWatcher)
    (p : AmendmentWatcher → Bool) (hfind : l.find? p = some w)
    (hid : ∀ x ∈ l, x.watcher_id = w.watcher_id → x = w) (hpu : p u = true) :
    (l.map (fun x => if x.watcher_id == w.watcher_id then u else x)).find? p = some u := by
  induction l with
  | nil => simp at hfind
  | cons x t ih =>
    by_cases hpx : p x = true
    · rw [List.find?_cons_of_pos _ hpx] at hfind
      have hxw : x = w := by injection hfind
      subst hxw
      rw [List.map_cons, if_pos (by simp)]
      exact List.find?_cons_of_pos _ hpu
    · rw [List.find?_cons_of_neg _ hpx] at hfind
      have hxid : x.watcher_id ≠ w.watcher_id := by
        intro hsame
        have hxw : x = w := hid x (by simp) hsame
        subst hxw
        exact hpx (List.find?_some hfind)
      rw [List.map_cons, if_neg (by simp [hxid]), List.find?_cons_of_neg _ hpx]
      exact ih hfind (fun y hy => hid y (by simp [hy]))

/-- Replacing the rows holding a given id by a row with the same filter
verdict keeps the filtered length. -/
theorem filter_length_replace_by_id (l : List AmendmentWatcher) (i : Nat)
    (u : AmendmentWatcher) (q : AmendmentWatcher → Bool)
    (hq : ∀ x ∈ l, x.watcher_id = i → q x = q u) :
    ((l.map (fun x => if x.watcher_id == i then u else x)).filter q).length =
      (l.filter q).length := by
  induction l with
  | nil => rfl
  | cons x t ih =>
    have ih2 := ih (fun y hy hyi => hq y (List.mem_cons_of_mem x hy) hyi)
    by_cases hxi : x.watcher_id = i
    · have hqx : q x = q u := hq x (List.mem_cons_self x t) hxi
      rw [List.map_cons, if_pos (by simp [hxi]), List.filter_cons, List.filter_cons]
      cases hu : q u
      · rw [if_neg (by simp [hu]), if_neg (by simp [hqx.trans hu])]
        exact ih2
      · rw [if_pos rfl, if_pos (hqx.trans hu)]
        simp only [List.length_cons, ih2]
    · rw [List.map_cons, if_neg (by simp [hxi]), List.filter_cons, List.filter_cons]
      cases hx : q x
      · rw [if_neg (by simp [hx]), if_neg (by simp [hx])]
        exact ih2
      · rw [if_pos rfl, if_pos rfl]
        simp only [List.length_cons, ih2]

/-- After replacing the rows holding an id by `u`, every element holding
the id of `u` is `u` itself. -/
theorem mem_replace_by_id (l : List AmendmentWatcher) (w u : AmendmentWatcher)
    (huid : u.watcher_id = w.watcher_id) :
    ∀ x ∈ l.map (fun y => if y.watcher_id == w.watcher_id then u else y),
      x.watcher_id = u.watcher_id → x = u := by
  intro x hx hxid
  rcases List.mem_map.mp hx with ⟨y, hy, hfy⟩
  by_cases hyw : y.watcher_id = w.watcher_id
  · rw [if_pos (by simp [hyw])] at hfy
    exact hfy.symm
  · rw [if_neg (by simp [hyw])] at hfy
    subst hfy
    exact absurd (hxid.trans huid) hyw

/-- When the located row is the unique holder of its id, the muting map
of `remove_watcher` is a constant replacement. -/
theorem map_remove_eq_replace (l : List AmendmentWatcher) (w : AmendmentWatcher)
    (hid : ∀ x ∈ l, x.watcher_id = w.watcher_id → x = w) :
    l.map (fun x => if x.watcher_id == w.watcher_id then { x with is_watching := false } else x) =
      l.map (fun x =>
        if x.watcher_id == w.watcher_id then { w with is_watching := false } else x) := by
  apply List.map_congr_left
  intro x hx
  by_cases hxi : x.watcher_id = w.watcher_id
  · rw [if_pos (by simp [hxi]), if_pos (by simp [hxi]), hid x hx hxi]
  · rw [if_neg (by simp [hxi]), if_neg (by simp [hxi])]

/-- A replacement map misses a list none of whose rows hold the id. -/
theorem map_if_id (l : List AmendmentWatcher) (i : Nat)
    (g : AmendmentWatcher → AmendmentWatcher) (h : ∀ x ∈ l, x.watcher_id ≠ i) :
    l.map (fun x => if x.watcher_id == i then g x else x) = l := by
  induction l with
  | nil => rfl
  | cons x t ih =>
    rw [List.map_cons, if_neg (by simp [h x (List.mem_cons_self x t)]),
      ih (fun y hy => h y (List.mem_cons_of_mem x hy))]

/-- `add_watcher` on a pair whose row exists and is active returns the
store and the row unchanged. -/
theorem add_watcher_found_active (db : DB) (a e : Nat) (r : String) (w : AmendmentWatcher)
    (hfind : db.watchers.find? (fun x => x.amendment_id == a && x.employee_id == e) = some w)
    (hw : w.is_watching = true) :
    add_watcher db a e r = (db, w) := by
  unfold add_watcher
  rw [hfind]
  simp [hw]

/-- `add_watcher` on a pair whose row exists muted re-activates that row
in place. -/
theorem add_watcher_found_muted (db : DB) (a e : Nat) (r : String) (w : AmendmentWatcher)
    (hfind : db.watchers.find? (fun x => x.amendment_id == a && x.employee_id == e) = some w)
    (hw : w.is_watching = false) :
    add_watcher db a e r =
      ({ db with
          watchers :=
            db.watchers.map (fun x =>
              if x.watcher_id == w.watcher_id then { w with is_watching := true } else x) },
       { w with is_watching := true }) := by
  unfold add_watcher
  rw [hfind]
  simp [hw]

/-- `add_watcher` on a pair without a row appends a fresh active row
with the given reason and the preference defaults. -/
theorem add_watcher_not_found (db : DB) (a e : Nat) (r : String)
    (hfind : db.watchers.find? (fun x => x.amendment_id == a && x.employee_id == e) = none) :
    add_watcher db a e r =
      ({ db with
          watchers :=
            db.watchers ++
              [{ watcher_id := db.next_watcher_id, amendment_id := a, employee_id := e,
                 watch_reason := r }],
          next_watcher_id := db.next_watcher_id + 1 },
       { watcher_id := db.next_watcher_id, amendment_id := a, employee_id := e,
         watch_reason := r }) := by
  unfold add_watcher
  rw [hfind]

/-- `remove_watcher` on a pair whose row exists mutes that row in
place. -/
theorem remove_watcher_found (db : DB) (a e : Nat) (w : AmendmentWatcher)
    (hfind : db.watchers.find? (fun x => x.amendment_id == a && x.employee_id == e) = some w) :
    remove_watcher db a e =
      { db with
          watchers :=
            db.watchers.map (fun x =>
              if x.watcher_id == w.watcher_id then { x with is_watching := false } else x) } := by
  unfold remove_watcher
  rw [hfind]

/-- `toggle_reaction` on an absent triple appends the row and reports
it. -/
theorem toggle_reaction_not_found (db : DB) (c e : Nat) (em : String)
    (hfind : db.reactions.find?
      (fun r => r.comment_id == c && r.employee_id == e && r.emoji == em) = none) :
    toggle_reaction db c e em =
      ({ db with
          reactions :=
            db.reactions ++
              [{ reaction_id := db.next_reaction_id, comment_id := c, employee_id := e,
                 emoji := em }],
          next_reaction_id := db.next_reaction_id + 1 },
       some { reaction_id := db.next_reaction_id, comment_id := c, employee_id := e,
              emoji := em }) := by
  unfold toggle_reaction
  rw [hfind]

/-- `toggle_reaction` on a present triple deletes the row and reports
nothing. -/
theorem toggle_reaction_found (db : DB) (c e : Nat) (em : String) (r0 : CommentReaction)
    (hfind : db.reactions.find?
      (fun r => r.comment_id == c && r.employee_id == e && r.emoji == em) = some r0) :
    toggle_reaction db c e em =
      ({ db with
          reactions := db.reactions.filter (fun r => r.reaction_id != r0.reaction_id) },
       none) := by
  unfold toggle_reaction
  rw [hfind]

/-- Claim C8: `add_watcher` is idempotent over the (amendment,
collaborator) pair — called twice it returns the same watcher identity
both times and leaves exactly one row for the pair — and
`remove_watcher` followed by `add_watcher` re-activates the original row
(same identity, `is_watching` true again) without creating a new row
(the row count stays one and the autoincrement counter does not move).
The hypotheses are the primary-key and unique-constraint invariants of
the watchers table. -/
theorem c8_add_watcher_idempotent (db : DB) (a e : Nat) (r1 r2 r3 : String)
    (hnodup : (db.watchers.map (fun w => w.watcher_id)).Nodup)
    (hbound : ∀ w ∈ db.watchers, w.watcher_id < db.next_watcher_id)
    (hpair : (watcher_pair_rows db a e).length ≤ 1) :
    (add_watcher (add_watcher db a e r1).1 a e r2).2.watcher_id =
      (add_watcher db a e r1).2.watcher_id ∧
    (watcher_pair_rows (add_watcher (add_watcher db a e r1).1 a e r2).1 a e).length = 1 ∧
    (add_watcher (remove_watcher (add_watcher db a e r1).1 a e) a e r3).2.watcher_id =
      (add_watcher db a e r1).2.watcher_id ∧
    (add_watcher (remove_watcher (add_watcher db a e r1).1 a e) a e r3).2.is_watching = true ∧
    (watcher_pair_rows
        (add_watcher (remove_watcher (add_watcher db a e r1).1 a e) a e r3).1 a e).length = 1 ∧
    (add_watcher (remove_watcher (add_watcher db a e r1).1 a e) a e r3).1.next_watcher_id =
      (add_watcher db a e r1).1.next_watcher_id := by
  cases h0 : db.watchers.find? (fun x => x.amendment_id == a && x.employee_id == e) with
  | none =>
    have hnone : ∀ x ∈ db.watchers, ¬ ((x.amendment_id == a && x.employee_id == e) = true) :=
      fun x hx => by simpa using List.find?_eq_none.mp h0 x hx
    have hidfresh : ∀ x ∈ db.watchers, x.watcher_id ≠ db.next_watcher_id :=
      fun x hx => Nat.ne_of_lt (hbound x hx)
    rw [add_watcher_not_found db a e r1 h0]
    have hfind1 : ((db.watchers ++
        [{ watcher_id := db.next_watcher_id, amendment_id := a, employee_id := e,
           watch_reason := r1 }] : List AmendmentWatcher).find?
          (fun x => x.amendment_id == a && x.employee_id == e)) =
        some { watcher_id := db.next_watcher_id, amendment_id := a, employee_id := e,
               watch_reason := r1 } := by
      rw [List.find?_append, h0]
      simp
    rw [add_watcher_found_active _ a e r2 _ hfind1 rfl]
    rw [remove_watcher_found _ a e _ hfind1]
    dsimp only
    have hmap1 : (db.watchers ++
        [{ watcher_id := db.next_watcher_id, amendment_id := a, employee_id := e,
           watch_reason := r1 }] : List AmendmentWatcher).map (fun x =>
          if x.watcher_id == db.next_watcher_id then { x with is_watching := false } else x) =
        db.watchers ++
          [{ watcher_id := db.next_watcher_id, amendment_id := a, employee_id := e,
             watch_reason := r1, is_watching := false }] := by
      rw [List.map_append,
        map_if_id db.watchers db.next_watcher_id
          (fun x => { x with is_watching := false }) hidfresh]
      simp
    rw [hmap1]
    have hfind2 : ((db.watchers ++
        [{ watcher_id := db.next_watcher_id, amendment_id := a, employee_id := e,
           watch_reason := r1, is_watching := false }] : List AmendmentWatcher).find?
          (fun x => x.amendment_id == a && x.employee_id == e)) =
        some { watcher_id := db.next_watcher_id, amendment_id := a, employee_id := e,
               watch_reason := r1, is_watching := false } := by
      rw [List.find?_append, h0]
      simp
    rw [add_watcher_found_muted _ a e r3 _ hfind2 rfl]
    dsimp only
    have hmap2 : (db.watchers ++
        [{ watcher_id := db.next_watcher_id, amendment_id := a, employee_id := e,
           watch_reason := r1, is_watching := false }] : List AmendmentWatcher).map (fun x =>
          if x.watcher_id == db.next_watcher_id then
            { watcher_id := db.next_watcher_id, amendment_id := a, employee_id := e,
              watch_reason := r1, is_watching := true }
          else x) =
        db.watchers ++
          [{ watcher_id := db.next_watcher_id, amendment_id := a, employee_id := e,
             watch_reason := r1 }] := by
      rw [List.map_append,
        map_if_id db.watchers db.next_watcher_id _ hidfresh]
      simp
    refine ⟨rfl, ?_, rfl, rfl, ?_, rfl⟩
    · show ((db.watchers ++ _).filter _).length = 1
      rw [List.filter_append, List.filter_eq_nil_iff.mpr hnone]
      simp
    · show (((db.watchers ++ _).map _).filter _).length = 1
      rw [hmap2, List.filter_append, List.filter_eq_nil_iff.mpr hnone]
      simp
  | some w0 =>
    have hw0mem : w0 ∈ db.watchers := List.mem_of_find?_eq_some h0
    have hp0beta := List.find?_some h0
    have hp0 : (w0.amendment_id == a && w0.employee_id == e) = true := hp0beta

    have hid : ∀ x ∈ db.watchers, x.watcher_id = w0.watcher_id → x = w0 :=
      fun x hx hxy => List.inj_on_of_nodup_map hnodup hx hw0mem hxy
    have hcount : (watcher_pair_rows db a e).length = 1 := by
      have hmem2 : w0 ∈ watcher_pair_rows db a e := List.mem_filter.mpr ⟨hw0mem, hp0⟩
      have hpos : 0 < (watcher_pair_rows db a e).length :=
        List.length_pos.mpr (List.ne_nil_of_mem hmem2)
      omega
    cases hw0w : w0.is_watching with
    | true =>
      rw [add_watcher_found_active db a e r1 w0 h0 hw0w]
      dsimp only
      rw [add_watcher_found_active db a e r2 w0 h0 hw0w]
      rw [remove_watcher_found db a e w0 h0]
      dsimp only
      rw [map_remove_eq_replace db.watchers w0 hid]
      have hfind3 : ((db.watchers.map (fun x =>
          if x.watcher_id == w0.watcher_id then { w0 with is_watching := false } else x)).find?
            (fun x => x.amendment_id == a && x.employee_id == e)) =
          some { w0 with is_watching := false } :=
        find?_replace_by_id db.watchers w0 _ _ h0 hid hp0
      rw [add_watcher_found_muted _ a e r3 _ hfind3 rfl]
      dsimp only
      refine ⟨rfl, hcount, rfl, rfl, ?_, rfl⟩
      show ((((db.watchers.map _).map _)).filter _).length = 1
      refine (filter_length_replace_by_id _ _ _ _ ?_).trans
        ((filter_length_replace_by_id _ _ _ _ ?_).trans hcount)
      · intro x hx hxi
        have hx0 : x = { w0 with is_watching := false } :=
          mem_replace_by_id db.watchers w0 ({ w0 with is_watching := false }) rfl x hx hxi
        rw [hx0]
      · intro x hx hxi
        rw [hid x hx hxi, hp0]
    | false =>
      rw [add_watcher_found_muted db a e r1 w0 h0 hw0w]
      dsimp only
      have hfind1 : ((db.watchers.map (fun x =>
          if x.watcher_id == w0.watcher_id then { w0 with is_watching := true } else x)).find?
            (fun x => x.amendment_id == a && x.employee_id == e)) =
          some { w0 with is_watching := true } :=
        find?_replace_by_id db.watchers w0 _ _ h0 hid hp0
      rw [add_watcher_found_active _ a e r2 _ hfind1 rfl]
      have hid1 : ∀ x ∈ db.watchers.map (fun x =>
          if x.watcher_id == w0.watcher_id then { w0 with is_watching := true } else x),
          x.watcher_id = ({ w0 with is_watching := true } : AmendmentWatcher).watcher_id →
            x = { w0 with is_watching := true } :=
        mem_replace_by_id db.watchers w0 _ rfl
      rw [remove_watcher_found _ a e _ hfind1]
      dsimp only
      rw [map_remove_eq_replace _ _ hid1]
      have hfind2 : (((db.watchers.map (fun x =>
          if x.watcher_id == w0.watcher_id then { w0 with is_watching := true } else x)).map
            (fun x => if x.watcher_id == ({ w0 with is_watching := true } : AmendmentWatcher).watcher_id
              then { { w0 with is_watching := true } with is_watching := false } else x)).find?
            (fun x => x.amendment_id == a && x.employee_id == e)) =
          some { { w0 with is_watching := true } with is_watching := false } :=
        find?_replace_by_id _ _ _ _ hfind1 hid1 hp0
      rw [add_watcher_found_muted _ a e r3 _ hfind2 rfl]
      dsimp only
      refine ⟨rfl, ?_, rfl, rfl, ?_, rfl⟩
      · show ((db.watchers.map _).filter _).length = 1
        refine (filter_length_replace_by_id _ _ _ _ ?_).trans hcount
        intro x hx hxi
        rw [hid x hx hxi, hp0]
      · show ((((db.watchers.map _).map _).map _).filter _).length = 1
        refine (filter_length_replace_by_id _ _ _ _ ?_).trans
          ((filter_length_replace_by_id _ _ _ _ ?_).trans
            ((filter_length_replace_by_id _ _ _ _ ?_).trans hcount))
        · intro x hx hxi
          have hx0 := mem_replace_by_id _ ({ w0 with is_watching := true } : AmendmentWatcher)
            ({ { w0 with is_watching := true } with is_watching := false} : AmendmentWatcher)
            rfl x hx hxi
          rw [hx0]
        · intro x hx hxi
          rw [hid1 x hx hxi]
        · intro x hx hxi
          rw [hid x hx hxi, hp0]

/-- Claim C9: starting from a store without the (comment, collaborator,
emoji) row, `toggle_reaction` reports a row on the first call
(`added=true`) and nothing on the second (`added=false`), and the second
call restores the reactions table exactly, so the summary matches the
prior state and the (collaborator, emoji) contribution for that comment
counts zero.  The hypothesis on ids is the primary-key invariant of the
reactions table. -/
theorem c9_toggle_reaction_round_trip (db : DB) (c e : Nat) (em : String)
    (hbound : ∀ r ∈ db.reactions, r.reaction_id < db.next_reaction_id)
    (habsent : db.reactions.find?
      (fun r => r.comment_id == c && r.employee_id == e && r.emoji == em) = none) :
    (toggle_reaction db c e em).2.isSome = true ∧
    (toggle_reaction (toggle_reaction db c e em).1 c e em).2 = none ∧
    (toggle_reaction (toggle_reaction db c e em).1 c e em).1.reactions = db.reactions ∧
    ((toggle_reaction (toggle_reaction db c e em).1 c e em).1.reactions.filter
      (fun r => r.comment_id == c && r.employee_id == e && r.emoji == em)).length = 0 ∧
    get_reaction_summary (toggle_reaction (toggle_reaction db c e em).1 c e em).1 c em =
      get_reaction_summary db c em := by
  rw [toggle_reaction_not_found db c e em habsent]
  dsimp only
  have hfind2 : ((db.reactions ++
      [{ reaction_id := db.next_reaction_id, comment_id := c, employee_id := e,
         emoji := em }] : List CommentReaction).find?
        (fun r => r.comment_id == c && r.employee_id == e && r.emoji == em)) =
      some { reaction_id := db.next_reaction_id, comment_id := c, employee_id := e,
             emoji := em } := by
    rw [List.find?_append, habsent]
    simp
  rw [toggle_reaction_found _ c e em _ hfind2]
  dsimp only
  have hkeep : ∀ r ∈ db.reactions, (r.reaction_id != db.next_reaction_id) = true :=
    fun r hr => by simpa using Nat.ne_of_lt (hbound r hr)
  have hreact : (db.reactions ++
      [{ reaction_id := db.next_reaction_id, comment_id := c, employee_id := e,
         emoji := em }] : List CommentReaction).filter
        (fun r => r.reaction_id != db.next_reaction_id) = db.reactions := by
    rw [List.filter_append, List.filter_eq_self.mpr hkeep]
    simp
  rw [hreact]
  have hnomatch : ∀ r ∈ db.reactions,
      ¬ ((r.comment_id == c && r.employee_id == e && r.emoji == em) = true) :=
    fun r hr => by simpa using List.find?_eq_none.mp habsent r hr
  refine ⟨rfl, rfl, rfl, ?_, rfl⟩
  rw [List.filter_eq_nil_iff.mpr hnomatch]
  rfl

/-- Witness for C8 on the empty store at the pair (1, 2). -/
theorem c8_add_watcher_idempotent_witness :
    (add_watcher (add_watcher emptyDB 1 2 "Manual").1 1 2 "Mentioned").2.watcher_id =
      (add_watcher emptyDB 1 2 "Manual").2.watcher_id ∧
    (watcher_pair_rows (add_watcher (add_watcher emptyDB 1 2 "Manual").1 1 2 "Mentioned").1
      1 2).length = 1 ∧
    (add_watcher (remove_watcher (add_watcher emptyDB 1 2 "Manual").1 1 2) 1 2
      "Participated").2.watcher_id = (add_watcher emptyDB 1 2 "Manual").2.watcher_id ∧
    (add_watcher (remove_watcher (add_watcher emptyDB 1 2 "Manual").1 1 2) 1 2
      "Participated").2.is_watching = true ∧
    (watcher_pair_rows
      (add_watcher (remove_watcher (add_watcher emptyDB 1 2 "Manual").1 1 2) 1 2
        "Participated").1 1 2).length = 1 ∧
    (add_watcher (remove_watcher (add_watcher emptyDB 1 2 "Manual").1 1 2) 1 2
      "Participated").1.next_watcher_id = (add_watcher emptyDB 1 2 "Manual").1.next_watcher_id :=
  c8_add_watcher_idempotent emptyDB 1 2 "Manual" "Mentioned" "Participated"
    (by decide) (by decide) (by decide)

/-- Witness for C9 on the empty store at comment 5, collaborator 7 and a
concrete emoji token. -/
theorem c9_toggle_reaction_round_trip_witness :
    (toggle_reaction emptyDB 5 7 "+1").2.isSome = true ∧
    (toggle_reaction (toggle_reaction emptyDB 5 7 "+1").1 5 7 "+1").2 = none ∧
    (toggle_reaction (toggle_reaction emptyDB 5 7 "+1").1 5 7 "+1").1.reactions =
      emptyDB.reactions ∧
    ((toggle_reaction (toggle_reaction emptyDB 5 7 "+1").1 5 7 "+1").1.reactions.filter
      (fun r => r.comment_id == 5 && r.employee_id == 7 && r.emoji == "+1")).length = 0 ∧
    get_reaction_summary (toggle_reaction (toggle_reaction emptyDB 5 7 "+1").1 5 7 "+1").1
      5 "+1" = get_reaction_summary emptyDB 5 "+1" :=
  c9_toggle_reaction_round_trip emptyDB 5 7 "+1" (by decide) (by decide)

/-- Claim C4 counterexample: the transition of `c4_amendment` from
In Testing to Passed is accepted by the status machine, yet applying it
through `update_amendment_qa` leaves the history table exactly as it
was — zero new rows, not the one new row the claim requires — while the
stored status does change to Passed. -/
theorem c4_accepted_transition_writes_no_history :
    (validate_transition c4_amendment "Passed").1.1 = true ∧
    (update_amendment_qa c4_db 1 c4_update).1.history = c4_db.history ∧
    ¬ ((update_amendment_qa c4_db 1 c4_update).1.history.length =
        c4_db.history.length + 1) ∧
    ((update_amendment_qa c4_db 1 c4_update).2.map (fun r => r.qa_status)) =
      some "Passed" := by
  refine ⟨by decide, rfl, by decide, rfl⟩

/-- Claim C4 as amended: `update_amendment_qa` applies the requested QA
fields and never writes a history row; one history row per change is
produced only by explicit `create_qa_history` calls (made by the
test-execution and defect paths, not by the QA update operation), and
each such call appends exactly one entry carrying the given old and new
values. -/
theorem c4_qa_update_keeps_history_and_recorder_appends_one (db : DB)
    (amendment_id : Nat) (u : AmendmentQAUpdate) (action : String)
    (field_name old_value new_value comment : Option String) (changed_by_id : Option Nat) :
    (update_amendment_qa db amendment_id u).1.history = db.history ∧
    (create_qa_history db amendment_id action field_name old_value new_value comment
        changed_by_id).1.history =
      db.history ++ [(create_qa_history db amendment_id action field_name old_value
        new_value comment changed_by_id).2] ∧
    (create_qa_history db amendment_id action field_name old_value new_value comment
        changed_by_id).2.old_value = old_value ∧
    (create_qa_history db amendment_id action field_name old_value new_value comment
        changed_by_id).2.new_value = new_value := by
  refine ⟨?_, rfl, rfl, rfl⟩
  unfold update_amendment_qa
  cases db.amendments.find? (fun r => r.amendment_id == amendment_id) <;> rfl

/-- Claim C5, evaluated at its failing input: on a status-change event
for amendment 1 of `c5_db` (three active watchers, one muted on status
changes, acting collaborator 99 not among them), the claim expects
exactly watchers 10 and 12 to each receive one notification; the code
instead reaches the broken `create_notification` call at the first
non-skipped watcher, raises `TypeError`, and creates no notification
row at all. -/
theorem c5_notify_watchers_crashes :
    ((get_watchers c5_db 1).filter
      (fun w => ! watcher_skipped "status_change" (some 99) w)).map
        (fun w => w.employee_id) = [10, 12] ∧
    (notify_watchers c5_db 1 "status_change" "Amendment status changed" (some 99)).2 =
      some create_notification_kwargs_error ∧
    (notify_watchers c5_db 1 "status_change" "Amendment status changed"
      (some 99)).1.notifications = [] := by
  refine ⟨rfl, rfl, rfl⟩

/-- Claim C6, evaluated at its failing input: the regex scan does find
the two tokens of the example text, but `parse_mentions` raises
`AttributeError` while resolving the first token (the `Employee` model
has no `username` attribute), for the example text and for a
duplicate-mention text alike, so it never returns the claimed identity
list. -/
theorem c6_parse_mentions_crashes :
    findMentionTokens "ping @alice and @\"Bob Smith\"".toList = ["alice", "Bob Smith"] ∧
    parse_mentions c6_db "ping @alice and @\"Bob Smith\"" =
      Except.error employee_username_attribute_error ∧
    parse_mentions c6_db "ping @alice and @alice" =
      Except.error employee_username_attribute_error := by
  refine ⟨by decide, rfl, rfl⟩

/-- Claim C7, evaluated at its failing input: employee 1 comments
"@alice" on amendment 1 of `c7_db`, mentioning the resolvable
collaborator Alice Smith; the call commits the comment row, then raises
`AttributeError` inside mention parsing, so no Mention row and no
Watcher row (neither Mentioned nor Participated) is ever created. -/
theorem c7_comment_with_mention_crashes :
    (create_qa_comment_enhanced c7_db 1 1 "@alice" "General" none).2 =
      Except.error employee_username_attribute_error ∧
    (create_qa_comment_enhanced c7_db 1 1 "@alice" "General" none).1.mentions = [] ∧
    (create_qa_comment_enhanced c7_db 1 1 "@alice" "General" none).1.watchers = [] ∧
    (create_qa_comment_enhanced c7_db 1 1 "@alice" "General" none).1.comments.length = 1 := by
  refine ⟨rfl, rfl, rfl, rfl⟩


end AmendmentSystem
